import Mathlib

/-
Verification of the AI helper layer (ai_utils) of the Assistant-IA-Power-Gas
repository.  The Python module is shallowly embedded: each Python function
becomes a Lean function, the external world (environment variable, secret
store, optional Groq SDK, completion API) is passed explicitly, and Python
exceptions are modelled with Except Unit.  Python string truthiness
(None or the empty string are falsy) is rendered with Option.getD and
comparison against the empty string.
-/

set_option maxHeartbeats 1000000

/-- Message dictionary sent to the completion API: a role tag and a content
string, mirroring the dicts built by construire_messages. -/
structure Message where
  role : String
  content : String
deriving DecidableEq

/-- History entry as the UI may hand it over: a Python dict in which the
role key and the content key may each be absent (message.get defaults). -/
structure HistEntry where
  role : Option String
  content : Option String
deriving DecidableEq

/-- One element of completion.choices; its message.content may be None. -/
structure Choix where
  content : Option String
deriving DecidableEq

/-- Request shape handed to the completion API by appeler_groq.  cle_client
is the key the Groq client was constructed with (none means the ambient
default Groq() construction). -/
structure CompletionRequest where
  cle_client : Option String
  modele : String
  messages : List Message
  temperature : Rat
  tokens_max : Nat

/-- Completion payload returned by the API: the list of choices. -/
structure CompletionPayload where
  choices : List Choix
deriving DecidableEq

/-- External world seen by appeler_groq: whether the groq import succeeded
(Groq is not None), and the behaviour of the client construction plus
chat.completions.create call; an error value models any raised exception. -/
structure GroqEnv where
  groqAvailable : Bool
  call : CompletionRequest → Except Unit CompletionPayload

/-- Default model constant MODELE_PAR_DEFAUT of ai_utils. -/
def MODELE_PAR_DEFAUT : String := "llama-3.1-8b-instant"

/-- Constant TEMPERATURE_CHATBOT of ai_utils. -/
def TEMPERATURE_CHATBOT : Rat := 0.2

/-- Constant TEMPERATURE_EMAIL of ai_utils. -/
def TEMPERATURE_EMAIL : Rat := 0.3

/-- Constant TOKENS_MAX_CHATBOT of ai_utils. -/
def TOKENS_MAX_CHATBOT : Nat := 1200

/-- Constant TOKENS_MAX_EMAIL of ai_utils. -/
def TOKENS_MAX_EMAIL : Nat := 900

/-- Drops the leading whitespace characters of a character list. -/
def sansEspacesDebut : List Char → List Char
  | [] => []
  | c :: reste => if c.isWhitespace then sansEspacesDebut reste else c :: reste

/-- Python str.strip(): removes leading and trailing whitespace.  Embedded
as an executable list recursion so that concrete inputs evaluate inside
proofs (the core library trim is kernel-opaque). -/
def espacesRetires (s : String) : String :=
  ⟨(sansEspacesDebut ((sansEspacesDebut s.toList).reverse)).reverse⟩

/-- Python str.lower(), modelled on the ASCII letter range (every keyword
and dictionary key the source compares against is ASCII). -/
def enMinuscules (s : String) : String := ⟨s.toList.map Char.toLower⟩

/-- Embeds recuperer_cle_groq.  The Python guard on the explicit argument
(truthy, and truthy once stripped) holds exactly when the argument,
defaulted to the empty string for None, is nonempty after trimming (a None
argument defaults to the empty string, whose trim is empty).  The
environment variable GROQ_API_KEY is the cle_env argument; the Streamlit
secrets probe is the secretProbe argument, whose error case models the
try block failing (streamlit missing or st.secrets raising). -/
def recuperer_cle_groq (cle_explicite : Option String) (cle_env : Option String)
    (secretProbe : Except Unit (Option String)) : Option String :=
  if espacesRetires (cle_explicite.getD "") ≠ "" then
    some (espacesRetires (cle_explicite.getD ""))
  else if cle_env.getD "" ≠ "" then
    cle_env
  else
    match secretProbe with
    | .ok cle_secrete => if cle_secrete.getD "" ≠ "" then cle_secrete else none
    | .error _ => none

/-- Body of the history loop of construire_messages: one iteration appends
the entry as a message when its content (message.get of the content key,
default empty) is nonempty, with the role defaulted to user when the role
key is absent, and skips it otherwise. -/
def ajouterEntree (acc : List Message) (message : HistEntry) : List Message :=
  if message.content.getD "" ≠ "" then
    acc ++ [⟨message.role.getD "user", message.content.getD ""⟩]
  else acc

/-- Embeds construire_messages: the system prompt when truthy, then the
history loop (ajouterEntree folded in order), then the current user
message when truthy. -/
def construire_messages (message_utilisateur : Option String)
    (prompt_systeme : Option String)
    (historique : Option (List HistEntry)) : List Message :=
  let messages : List Message := []
  let messages :=
    if prompt_systeme.getD "" ≠ "" then
      messages ++ [⟨"system", prompt_systeme.getD ""⟩]
    else messages
  let messages :=
    match historique with
    | some entrees => entrees.foldl ajouterEntree messages
    | none => messages
  if message_utilisateur.getD "" ≠ "" then
    messages ++ [⟨"user", message_utilisateur.getD ""⟩]
  else messages

/-- Embeds appeler_groq.  When the Groq import failed the RuntimeError is
the error case; otherwise the client is bound to the key when the key is
truthy (Groq with api_key) and to the ambient default otherwise (bare
Groq()), the single API call is performed, and the first choice content,
defaulted to the empty string, is trimmed.  An empty choices list models
the IndexError of choices[0]. -/
def appeler_groq (messages : List Message) (modele : String)
    (temperature : Rat) (tokens_max : Nat) (cle_api : Option String)
    (env : GroqEnv) : Except Unit String :=
  if env.groqAvailable then
    let cle_client := if cle_api.getD "" ≠ "" then cle_api else none
    match env.call ⟨cle_client, modele, messages, temperature, tokens_max⟩ with
    | .error e => .error e
    | .ok completion =>
        match completion.choices with
        | [] => .error ()
        | choix :: _ => .ok (espacesRetires (choix.content.getD ""))
  else
    .error ()

/-- List of substring keywords mots_cles_tarifs of reponse_de_secours. -/
def mots_cles_tarifs : List String :=
  ["tarif", "prix", "kwh", "augmentation", "facture"]

/-- List of substring keywords mots_cles_gaz of reponse_de_secours. -/
def mots_cles_gaz : List String :=
  ["gaz", "m3", "pcs", "pci", "coefficient"]

/-- Canned tariff paragraph returned by reponse_de_secours. -/
def texte_tarifs : String :=
  "Sans accès à l\x27IA, voici une indication générale : " ++
  "les tarifs électricité et gaz évoluent en fonction du marché, " ++
  "des taxes (ex. CSPE/CTA/TURPE) et de la puissance/consommation. " ++
  "Pour une estimation, précisez votre offre, puissance (kVA), " ++
  "consommation annuelle (kWh) et zone. " ++
  "Consultez aussi les références officielles " ++
  "(CRE, Enedis, GRDF, service-public)."

/-- Canned gas conversion paragraph returned by reponse_de_secours. -/
def texte_gaz : String :=
  "Pour le gaz, la facturation se fait en kWh via un coefficient " ++
  "de conversion (m³ → kWh) dépendant du pouvoir calorifique " ++
  "(PCS/PCI) et de la zone. " ++
  "Vérifiez votre facture pour le coefficient exact " ++
  "et la zone GRDF."

/-- Generic no-AI-access fallback message returned by reponse_de_secours. -/
def texte_generique : String :=
  "Je n\x27ai pas accès au service d\x27IA pour le moment. " ++
  "Donnez plus de détails (contexte, chiffres, offre, période) " ++
  "et je fournirai un guide méthodologique pas à pas."

/-- Whether the character list mot is a leading segment of the character
list texte, used by contientMot. -/
def commencePar : List Char → List Char → Bool
  | [], _ => true
  | _ :: _, [] => false
  | a :: as, b :: bs => a == b && commencePar as bs

/-- Whether mot occurs as a contiguous run inside texte. -/
def contientListe (mot : List Char) : List Char → Bool
  | [] => commencePar mot []
  | c :: reste => commencePar mot (c :: reste) || contientListe mot reste

/-- Python substring membership: mot in texte. -/
def contientMot (texte mot : String) : Bool :=
  contientListe mot.toList texte.toList

/-- Embeds reponse_de_secours.  The user text is lower-cased; in the energy
domain the tariff keyword set is tested first, then the gas keyword set;
any other domain, or no match, yields the generic message. -/
def reponse_de_secours (texte_utilisateur : String) (domaine : String) : String :=
  let texte := enMinuscules texte_utilisateur
  if domaine = "energy" then
    if mots_cles_tarifs.any (fun mot => contientMot texte mot) then
      texte_tarifs
    else if mots_cles_gaz.any (fun mot => contientMot texte mot) then
      texte_gaz
    else
      texte_generique
  else
    texte_generique

/-- Body of the try block of generer_reponse_ia (steps 2 to 4): resolve
the key, short-circuit to the fallback when no key was resolved and the
Groq SDK is absent, otherwise apply the default model when the model
string is falsy and perform the Groq call.  The error case is any
exception raised inside the block. -/
def tentative_ia (messages_complets : List Message)
    (message_utilisateur : Option String) (cle_api : Option String)
    (modele : String) (temperature : Rat) (tokens_max : Nat)
    (domaine_secours : String) (cle_env : Option String)
    (secretProbe : Except Unit (Option String)) (env : GroqEnv) :
    Except Unit String :=
  let cle_resolue := recuperer_cle_groq cle_api cle_env secretProbe
  if cle_resolue.getD "" = "" ∧ env.groqAvailable = false then
    .ok (reponse_de_secours (message_utilisateur.getD "") domaine_secours)
  else
    let modele := if modele = "" then MODELE_PAR_DEFAUT else modele
    appeler_groq messages_complets modele temperature tokens_max
      cle_resolue env

/-- Embeds generer_reponse_ia: build the full message list, run the try
block, and on any exception return the fallback answer for the original
user text (defaulted to the empty string for None) and fallback domain. -/
def generer_reponse_ia (message_utilisateur : Option String)
    (prompt_systeme : Option String) (messages : Option (List HistEntry))
    (cle_api : Option String) (modele : String) (temperature : Rat)
    (tokens_max : Nat) (domaine_secours : String) (cle_env : Option String)
    (secretProbe : Except Unit (Option String)) (env : GroqEnv) : String :=
  let messages_complets :=
    construire_messages message_utilisateur prompt_systeme messages
  match tentative_ia messages_complets message_utilisateur cle_api modele
      temperature tokens_max domaine_secours cle_env secretProbe env with
  | .ok reponse => reponse
  | .error _ =>
      reponse_de_secours (message_utilisateur.getD "") domaine_secours

/-- Tone dictionary tons_disponibles of generer_reponse_email. -/
def tons_disponibles : List (String × String) :=
  [("professionnel", "professionnel et poli"),
   ("empathique", "empathique et rassurant"),
   ("ferme", "ferme mais courtois"),
   ("convivial", "amical et accessible")]

/-- Language dictionary langues_disponibles of generer_reponse_email. -/
def langues_disponibles : List (String × String) :=
  [("fr", "en français"), ("en", "in English")]

/-- English system prompt of generer_reponse_email. -/
def prompt_systeme_anglais : String :=
  "You are an assistant who writes clear, concise and well-structured " ++
  "email replies. Use the requested tone. Answer strictly in English. " ++
  "Return only the email body in plain text. Prefer short paragraphs " ++
  "and bullet points when useful."

/-- French system prompt of generer_reponse_email. -/
def prompt_systeme_francais : String :=
  "Tu es un assistant qui rédige des réponses d\x27e-mails claires, " ++
  "concises et structurées. Respecte le ton demandé, garde un style " ++
  "professionnel, et fournis seulement le corps de l\x27e-mail sans " ++
  "balises techniques ni mise en forme riche. Utilise des paragraphes " ++
  "courts et, si utile, des puces."

/-- Embeds generer_reponse_email: look up the tone and language with their
defaults (dictionary get with the professional and French entries as
defaults, keys lower-cased), pick the language-specific system prompt and
user-turn template, append the extra-constraints clause when the trimmed
instructions are truthy, and delegate to generer_reponse_ia with no history
and the email fallback domain. -/
def generer_reponse_email (texte_email : String) (ton : String)
    (langue : String) (instructions_supplementaires : Option String)
    (cle_api : Option String) (modele : String) (temperature : Rat)
    (tokens_max : Nat) (cle_env : Option String)
    (secretProbe : Except Unit (Option String)) (env : GroqEnv) : String :=
  let ton_choisi := (tons_disponibles.lookup (enMinuscules ton)).getD
    ((tons_disponibles.lookup "professionnel").getD "")
  let langue_choisie := (langues_disponibles.lookup (enMinuscules langue)).getD
    ((langues_disponibles.lookup "fr").getD "")
  let prompt_systeme :=
    if enMinuscules langue = "en" then prompt_systeme_anglais
    else prompt_systeme_francais
  let message_utilisateur :=
    if enMinuscules langue = "en" then
      "Write the reply " ++ langue_choisie ++ ", tone " ++ ton_choisi ++
      ".\n" ++ "Incoming email:\n---\n" ++ texte_email ++ "\n---\n"
    else
      "Rédige une réponse " ++ langue_choisie ++ ", ton " ++ ton_choisi ++
      ".\n" ++ "E-mail reçu:\n---\n" ++ texte_email ++ "\n---\n"
  let debut_contraintes :=
    if enMinuscules langue = "en" then "Additional constraints: "
    else "Contraintes supplémentaires: "
  let message_utilisateur :=
    if espacesRetires (instructions_supplementaires.getD "") ≠ "" then
      message_utilisateur ++ debut_contraintes ++
        espacesRetires (instructions_supplementaires.getD "") ++ "\n"
    else message_utilisateur
  generer_reponse_ia (some message_utilisateur) (some prompt_systeme) none
    cle_api modele temperature tokens_max "email" cle_env secretProbe env

/-- State-passing rendering of construire_messages for the frame property:
the pair carries the result together with the caller-owned history as it
stands after the call.  The body of the source only reads the history
(truth test, iteration, dict get with defaults), so the post-call history
is the argument itself. -/
def construire_messages_etat (message_utilisateur : Option String)
    (prompt_systeme : Option String)
    (historique : Option (List HistEntry)) :
    List Message × Option (List HistEntry) :=
  (construire_messages message_utilisateur prompt_systeme historique,
   historique)

/-- State-passing rendering of generer_reponse_ia: the source hands the
history to construire_messages, which only reads it, and performs no other
operation on it, so the post-call history is the argument itself. -/
def generer_reponse_ia_etat (message_utilisateur : Option String)
    (prompt_systeme : Option String) (messages : Option (List HistEntry))
    (cle_api : Option String) (modele : String) (temperature : Rat)
    (tokens_max : Nat) (domaine_secours : String) (cle_env : Option String)
    (secretProbe : Except Unit (Option String)) (env : GroqEnv) :
    String × Option (List HistEntry) :=
  (generer_reponse_ia message_utilisateur prompt_systeme messages cle_api
    modele temperature tokens_max domaine_secours cle_env secretProbe env,
   messages)

/-- State-passing rendering of generer_reponse_email with respect to the UI
session history: the source never receives the session history (it calls
generer_reponse_ia with messages set to None), so the caller-owned history
is untouched. -/
def generer_reponse_email_etat (texte_email : String) (ton : String)
    (langue : String) (instructions_supplementaires : Option String)
    (cle_api : Option String) (modele : String) (temperature : Rat)
    (tokens_max : Nat) (cle_env : Option String)
    (secretProbe : Except Unit (Option String)) (env : GroqEnv)
    (historique_session : Option (List HistEntry)) :
    String × Option (List HistEntry) :=
  (generer_reponse_email texte_email ton langue instructions_supplementaires
    cle_api modele temperature tokens_max cle_env secretProbe env,
   historique_session)

/-- Spec-side view of the contribution of one history entry: the message it
yields, or none when its extracted content is empty. -/
def entreeVersMessage (e : HistEntry) : Option Message :=
  if e.content.getD "" ≠ "" then
    some ⟨e.role.getD "user", e.content.getD ""⟩
  else none

theorem foldl_historique (l : List HistEntry) (acc : List Message) :
    l.foldl ajouterEntree acc = acc ++ l.filterMap entreeVersMessage := by
  induction l generalizing acc with
  | nil => simp
  | cons e t ih =>
      by_cases h : e.content.getD "" ≠ ""
      · have h1 : ajouterEntree acc e =
            acc ++ [⟨e.role.getD "user", e.content.getD ""⟩] := by
          unfold ajouterEntree
          rw [if_pos h]
        have h2 : entreeVersMessage e =
            some ⟨e.role.getD "user", e.content.getD ""⟩ := by
          unfold entreeVersMessage
          rw [if_pos h]
        rw [List.foldl_cons, h1, ih, List.filterMap_cons_some h2,
          List.append_assoc, List.singleton_append]
      · have h1 : ajouterEntree acc e = acc := by
          unfold ajouterEntree
          rw [if_neg h]
        have h2 : entreeVersMessage e = none := by
          unfold entreeVersMessage
          rw [if_neg h]
        rw [List.foldl_cons, h1, ih, List.filterMap_cons_none h2]

theorem construire_messages_decomposition (mu ps : Option String)
    (hist : Option (List HistEntry)) :
    construire_messages mu ps hist =
      (if ps.getD "" ≠ "" then [⟨"system", ps.getD ""⟩] else [])
      ++ (hist.getD []).filterMap entreeVersMessage
      ++ (if mu.getD "" ≠ "" then [⟨"user", mu.getD ""⟩] else []) := by
  cases hist with
  | none =>
      by_cases hps : ps.getD "" ≠ "" <;> by_cases hmu : mu.getD "" ≠ "" <;>
        simp [construire_messages, hps, hmu]
  | some entrees =>
      by_cases hps : ps.getD "" ≠ "" <;> by_cases hmu : mu.getD "" ≠ "" <;>
        simp [construire_messages, hps, hmu, foldl_historique]

theorem entreeVersMessage_contenu {e : HistEntry} {m : Message}
    (h : entreeVersMessage e = some m) : m.content ≠ "" := by
  unfold entreeVersMessage at h
  by_cases hc : e.content.getD "" ≠ ""
  · rw [if_pos hc] at h
    obtain rfl := Option.some.inj h
    simpa using hc
  · rw [if_neg hc] at h
    cases h

/-- Claim C3: construire_messages never emits an entry with empty content
and its order is always system message (present iff the system prompt is
nonempty), then the nonempty-content history entries in original relative
order, then the current user message (present iff that text is nonempty)
last. -/
theorem construire_messages_forme (mu ps : Option String)
    (hist : Option (List HistEntry)) :
    construire_messages mu ps hist =
      (if ps.getD "" ≠ "" then [⟨"system", ps.getD ""⟩] else [])
      ++ (hist.getD []).filterMap entreeVersMessage
      ++ (if mu.getD "" ≠ "" then [⟨"user", mu.getD ""⟩] else [])
    ∧ ∀ m ∈ construire_messages mu ps hist, m.content ≠ "" := by
  refine ⟨construire_messages_decomposition mu ps hist, ?_⟩
  intro m hm
  rw [construire_messages_decomposition] at hm
  rcases List.mem_append.mp hm with hgauche | hcourant
  · rcases List.mem_append.mp hgauche with hsys | hhist
    · by_cases hps : ps.getD "" ≠ ""
      · rw [if_pos hps] at hsys
        simp only [List.mem_singleton] at hsys
        subst hsys
        simpa using hps
      · rw [if_neg hps] at hsys
        cases hsys
    · obtain ⟨e, _, hem⟩ := List.mem_filterMap.mp hhist
      exact entreeVersMessage_contenu hem
  · by_cases hmu : mu.getD "" ≠ ""
    · rw [if_pos hmu] at hcourant
      simp only [List.mem_singleton] at hcourant
      subst hcourant
      simpa using hmu
    · rw [if_neg hmu] at hcourant
      cases hcourant

/-- Witness for construire_messages_forme at a concrete call. -/
theorem construire_messages_forme_witness :
    (⟨"user", "bonjour"⟩ : Message) ∈
      construire_messages (some "bonjour") none none ∧
    (⟨"user", "bonjour"⟩ : Message).content ≠ "" := by
  refine ⟨by decide, ?_⟩
  exact (construire_messages_forme (some "bonjour") none none).2
    ⟨"user", "bonjour"⟩ (by decide)

/-- Claim C10: a history entry with nonempty content is kept even when it
has no role key, the role defaulting to user, and whatever role string it
carries is copied through unvalidated. -/
theorem construire_messages_role_defaut (role : Option String) (c : String)
    (hc : c ≠ "") (avant apres : List HistEntry) (mu ps : Option String) :
    ∃ l₁ l₂,
      construire_messages mu ps (some (avant ++ ⟨role, some c⟩ :: apres)) =
        l₁ ++ ⟨role.getD "user", c⟩ :: l₂ := by
  refine ⟨(if ps.getD "" ≠ "" then [⟨"system", ps.getD ""⟩] else [])
    ++ avant.filterMap entreeVersMessage,
    apres.filterMap entreeVersMessage
    ++ (if mu.getD "" ≠ "" then [⟨"user", mu.getD ""⟩] else []), ?_⟩
  rw [construire_messages_decomposition]
  simp [List.filterMap_append, List.filterMap_cons, entreeVersMessage, hc]

/-- Witness for construire_messages_role_defaut: a roleless entry lands
with role user, and an out-of-enumeration role is copied through. -/
theorem construire_messages_role_defaut_witness :
    (∃ l₁ l₂, construire_messages none none (some [⟨none, some "salut"⟩]) =
      l₁ ++ ⟨"user", "salut"⟩ :: l₂)
    ∧ (∃ l₁ l₂,
        construire_messages none none (some [⟨some "robot", some "ok"⟩]) =
        l₁ ++ ⟨"robot", "ok"⟩ :: l₂) :=
  ⟨construire_messages_role_defaut none "salut" (by decide) [] [] none none,
   construire_messages_role_defaut (some "robot") "ok" (by decide) [] []
     none none⟩

/-- Claim C5: recuperer_cle_groq resolves by ordered sources, first
nonempty winning: the explicit argument nonempty after trimming is
returned trimmed regardless of the other sources; otherwise a nonempty
GROQ_API_KEY environment value; otherwise the secret-store value when one
exists; and None when no source yields a key. -/
theorem recuperer_cle_groq_ordre (c e : Option String)
    (p : Except Unit (Option String)) :
    (espacesRetires (c.getD "") ≠ "" →
      recuperer_cle_groq c e p = some (espacesRetires (c.getD "")))
    ∧ (espacesRetires (c.getD "") = "" → e.getD "" ≠ "" →
      recuperer_cle_groq c e p = e)
    ∧ (∀ s, espacesRetires (c.getD "") = "" → e.getD "" = "" →
      s.getD "" ≠ "" → recuperer_cle_groq c e (.ok s) = s)
    ∧ (espacesRetires (c.getD "") = "" → e.getD "" = "" →
      (match p with | .ok s => s.getD "" = "" | .error _ => True) →
      recuperer_cle_groq c e p = none) := by
  refine ⟨fun h1 => ?_, fun h1 h2 => ?_, fun s h1 h2 h3 => ?_,
    fun h1 h2 h3 => ?_⟩
  · simp [recuperer_cle_groq, h1]
  · simp [recuperer_cle_groq, h1, h2]
  · simp [recuperer_cle_groq, h1, h2, h3]
  · cases p with
    | ok s => simp_all [recuperer_cle_groq]
    | error u => simp [recuperer_cle_groq, h1, h2]

/-- Witness for recuperer_cle_groq_ordre: a padded explicit key wins
trimmed over every other source, and all-empty sources resolve to none. -/
theorem recuperer_cle_groq_ordre_witness :
    recuperer_cle_groq (some "abc ") (some "autre") (.error ()) = some "abc"
    ∧ recuperer_cle_groq none none (.ok none) = none := by
  constructor
  · exact (recuperer_cle_groq_ordre (some "abc ") (some "autre")
      (.error ())).1 (by decide)
  · exact (recuperer_cle_groq_ordre none none (.ok none)).2.2.2 (by decide)
      (by decide) (by decide)

/-- Claim C8: recuperer_cle_groq never raises (the embedding is total for
every probe outcome, the error case modelling the secret store throwing)
and a failing probe is swallowed: it resolves exactly as an empty store
would. -/
theorem recuperer_cle_groq_avale_erreurs (c e : Option String) (u : Unit) :
    recuperer_cle_groq c e (.error u) = recuperer_cle_groq c e (.ok none) := by
  by_cases h1 : espacesRetires (c.getD "") ≠ "" <;>
    by_cases h2 : e.getD "" ≠ "" <;>
      simp [recuperer_cle_groq, h1, h2]

/-- Claim C9: the history handed to construire_messages,
generer_reponse_ia, or generer_reponse_email is unchanged after the call:
in the state-passing rendering of each function the post-call history is
the pre-call one. -/
theorem historique_non_modifie (mu ps : Option String)
    (hist : Option (List HistEntry)) (cle : Option String) (modele : String)
    (temp : Rat) (toks : Nat) (dom : String) (ce : Option String)
    (sp : Except Unit (Option String)) (env : GroqEnv)
    (texte ton langue : String) (instr : Option String) :
    (construire_messages_etat mu ps hist).2 = hist
    ∧ (generer_reponse_ia_etat mu ps hist cle modele temp toks dom ce sp
        env).2 = hist
    ∧ (generer_reponse_email_etat texte ton langue instr cle modele temp
        toks ce sp env hist).2 = hist :=
  ⟨rfl, rfl, rfl⟩

/-- Claim C4: the fallback decision: with domain energy a tariff keyword
hit wins (even when a gas keyword also matches), otherwise a gas keyword
hit gives the gas paragraph, and in every other case (no match, or any
other domain, email included) the generic no-AI-access message comes
back. -/
theorem reponse_de_secours_decision (t d : String) :
    (d ≠ "energy" → reponse_de_secours t d = texte_generique)
    ∧ (mots_cles_tarifs.any
        (fun mot => contientMot (enMinuscules t) mot) = true →
        reponse_de_secours t "energy" = texte_tarifs)
    ∧ (mots_cles_tarifs.any
        (fun mot => contientMot (enMinuscules t) mot) = false →
        mots_cles_gaz.any
          (fun mot => contientMot (enMinuscules t) mot) = true →
        reponse_de_secours t "energy" = texte_gaz)
    ∧ (mots_cles_tarifs.any
        (fun mot => contientMot (enMinuscules t) mot) = false →
        mots_cles_gaz.any
          (fun mot => contientMot (enMinuscules t) mot) = false →
        reponse_de_secours t "energy" = texte_generique) := by
  refine ⟨fun hd => ?_, fun h1 => ?_, fun h1 h2 => ?_, fun h1 h2 => ?_⟩ <;>
    simp [reponse_de_secours, *]

/-- Witness for reponse_de_secours_decision: a text matching both keyword
sets gets the tariff paragraph in the energy domain and the generic
message in the email domain. -/
theorem reponse_de_secours_decision_witness :
    reponse_de_secours "Prix du gaz ?" "email" = texte_generique
    ∧ reponse_de_secours "Prix du gaz ?" "energy" = texte_tarifs := by
  constructor
  · exact (reponse_de_secours_decision "Prix du gaz ?" "email").1 (by decide)
  · exact (reponse_de_secours_decision "Prix du gaz ?" "energy").2.1
      (by decide)

/-- Claim C1: any exception inside the orchestrated steps (modelled by the
error outcome of tentative_ia, which covers credential resolution, the
short-circuit test, default-model application and the completion call) is
caught by generer_reponse_ia and converted into the fallback answer for
the original user text and fallback domain; generer_reponse_ia is total,
so no exception reaches its caller, and message building itself is a total
function of its typed inputs. -/
theorem generer_reponse_ia_capture_exceptions (mu ps : Option String)
    (msgs : Option (List HistEntry)) (cle : Option String) (modele : String)
    (temp : Rat) (toks : Nat) (dom : String) (ce : Option String)
    (sp : Except Unit (Option String)) (env : GroqEnv) (u : Unit)
    (h : tentative_ia (construire_messages mu ps msgs) mu cle modele temp
      toks dom ce sp env = .error u) :
    generer_reponse_ia mu ps msgs cle modele temp toks dom ce sp env =
      reponse_de_secours (mu.getD "") dom := by
  simp only [generer_reponse_ia]
  rw [h]

/-- Witness for generer_reponse_ia_capture_exceptions: with a completion
call that raises, the orchestrator returns the fallback text. -/
theorem generer_reponse_ia_capture_exceptions_witness :
    generer_reponse_ia (some "bonjour") none none (some "cle") "m" 0 5
      "energy" none (.ok none) ⟨true, fun _ => .error ()⟩ =
      reponse_de_secours "bonjour" "energy" :=
  generer_reponse_ia_capture_exceptions (some "bonjour") none none
    (some "cle") "m" 0 5 "energy" none (.ok none)
    ⟨true, fun _ => .error ()⟩ () rfl

/-- Claim C2: when credential resolution yields no key and the Groq import
failed, generer_reponse_ia returns exactly the fallback answer for the
user text and fallback domain; the completion behaviour env.call is left
arbitrary, so no client construction or completion call is consulted. -/
theorem generer_reponse_ia_court_circuit (mu ps : Option String)
    (msgs : Option (List HistEntry)) (cle : Option String) (modele : String)
    (temp : Rat) (toks : Nat) (dom : String) (ce : Option String)
    (sp : Except Unit (Option String)) (env : GroqEnv)
    (hsdk : env.groqAvailable = false)
    (hcle : recuperer_cle_groq cle ce sp = none) :
    generer_reponse_ia mu ps msgs cle modele temp toks dom ce sp env =
      reponse_de_secours (mu.getD "") dom := by
  simp [generer_reponse_ia, tentative_ia, hcle, hsdk]

/-- Witness for generer_reponse_ia_court_circuit: no key anywhere and the
SDK missing short-circuits to the fallback even when the completion stub
would have answered. -/
theorem generer_reponse_ia_court_circuit_witness :
    generer_reponse_ia none none none none "m" 0 5 "energy" none (.ok none)
      ⟨false, fun _ => .ok ⟨[⟨some "inatteignable"⟩]⟩⟩ =
      reponse_de_secours "" "energy" :=
  generer_reponse_ia_court_circuit none none none none "m" 0 5 "energy"
    none (.ok none) ⟨false, fun _ => .ok ⟨[⟨some "inatteignable"⟩]⟩⟩
    rfl rfl

/-- Claim C7: when the completion payload has a first choice with content t
(or no content, treated as empty text), appeler_groq returns t trimmed,
and generer_reponse_email returns exactly that trimmed text with no extra
wrapping around it. -/
theorem appeler_groq_extraction (t : String) (messages : List Message)
    (modele : String) (temp : Rat) (toks : Nat) (cle : Option String)
    (texte ton langue : String) (instr : Option String) (ce : Option String)
    (sp : Except Unit (Option String)) :
    appeler_groq messages modele temp toks cle
        ⟨true, fun _ => .ok ⟨[⟨some t⟩]⟩⟩ = .ok (espacesRetires t)
    ∧ appeler_groq messages modele temp toks cle
        ⟨true, fun _ => .ok ⟨[⟨none⟩]⟩⟩ = .ok ""
    ∧ generer_reponse_email texte ton langue instr cle modele temp toks ce
        sp ⟨true, fun _ => .ok ⟨[⟨some t⟩]⟩⟩ = espacesRetires t := by
  refine ⟨?_, ?_, ?_⟩
  · simp [appeler_groq]
  · simp only [appeler_groq]
    norm_num
    decide
  · simp [generer_reponse_email, generer_reponse_ia, tentative_ia,
      appeler_groq]

theorem lookup_langue_none {s : String}
    (h : langues_disponibles.lookup s = none) : s ≠ "fr" ∧ s ≠ "en" := by
  constructor <;> rintro rfl <;> revert h <;> decide

theorem eval_lookup_professionnel :
    (tons_disponibles.lookup "professionnel").getD "" =
      "professionnel et poli" := by
  decide

theorem eval_lookup_ton_prof :
    tons_disponibles.lookup (enMinuscules "professionnel") =
      some "professionnel et poli" := by
  decide

theorem eval_lookup_fr :
    (langues_disponibles.lookup "fr").getD "" = "en français" := by
  decide

theorem eval_lookup_langue_fr :
    langues_disponibles.lookup "fr" = some "en français" := by
  decide

theorem eval_min_fr : enMinuscules "fr" = "fr" := by
  decide

theorem eval_fr_ne_en : ("fr" : String) ≠ "en" := by
  decide

/-- Claim C6: generer_reponse_email with a tone outside the tone map gives
exactly the result of tone professionnel, with a language outside the
language map exactly the result of language fr, and both lookups are
case-insensitive (any two tone or language spellings with the same
lower-casing give the same result). -/
theorem generer_reponse_email_defauts (texte ton langue : String)
    (instr : Option String) (cle : Option String) (modele : String)
    (temp : Rat) (toks : Nat) (ce : Option String)
    (sp : Except Unit (Option String)) (env : GroqEnv) :
    (tons_disponibles.lookup (enMinuscules ton) = none →
      generer_reponse_email texte ton langue instr cle modele temp toks ce
        sp env =
      generer_reponse_email texte "professionnel" langue instr cle modele
        temp toks ce sp env)
    ∧ (langues_disponibles.lookup (enMinuscules langue) = none →
      generer_reponse_email texte ton langue instr cle modele temp toks ce
        sp env =
      generer_reponse_email texte ton "fr" instr cle modele temp toks ce
        sp env)
    ∧ (∀ ton2 langue2, enMinuscules ton2 = enMinuscules ton →
      enMinuscules langue2 = enMinuscules langue →
      generer_reponse_email texte ton2 langue2 instr cle modele temp toks
        ce sp env =
      generer_reponse_email texte ton langue instr cle modele temp toks ce
        sp env) := by
  refine ⟨fun hton => ?_, fun hlangue => ?_, fun ton2 langue2 h1 h2 => ?_⟩
  · simp only [generer_reponse_email, hton, eval_lookup_ton_prof,
      eval_lookup_professionnel, Option.getD_none, Option.getD_some]
  · obtain ⟨hfr, hen⟩ := lookup_langue_none hlangue
    simp only [generer_reponse_email, hlangue, eval_min_fr,
      eval_lookup_langue_fr, Option.getD_none, Option.getD_some,
      eval_lookup_fr, if_neg hen, if_neg eval_fr_ne_en]
  · simp only [generer_reponse_email, h1, h2]

/-- Witness for generer_reponse_email_defauts: tone INVALID equals tone
professionnel and language de equals language fr at a concrete call. -/
theorem generer_reponse_email_defauts_witness :
    generer_reponse_email "e" "INVALID" "de" none none "m" 0 5 none
      (.ok none) ⟨false, fun _ => .error ()⟩ =
    generer_reponse_email "e" "professionnel" "de" none none "m" 0 5 none
      (.ok none) ⟨false, fun _ => .error ()⟩
    ∧ generer_reponse_email "e" "INVALID" "de" none none "m" 0 5 none
      (.ok none) ⟨false, fun _ => .error ()⟩ =
    generer_reponse_email "e" "INVALID" "fr" none none "m" 0 5 none
      (.ok none) ⟨false, fun _ => .error ()⟩ := by
  constructor
  · exact (generer_reponse_email_defauts "e" "INVALID" "de" none none "m"
      0 5 none (.ok none) ⟨false, fun _ => .error ()⟩).1 (by decide)
  · exact (generer_reponse_email_defauts "e" "INVALID" "de" none none "m"
      0 5 none (.ok none) ⟨false, fun _ => .error ()⟩).2.1 (by decide)
